import Mathlib

set_option maxHeartbeats 1000000
set_option maxRecDepth 8192

/-!
Verification of the type-reference translation and declaration-emission
engine of graphql-schema-typescript.  The definitions below are a shallow
embedding of `src/utils.ts`, `src/simple-types-generator.ts` and
`src/resolver-types-generator.ts` (plus the historical variants kept in the
repository).  TypeScript strings become `String`, arrays become `List`,
thrown exceptions become `Except String`, and JS object-field lookups with
truthiness checks are modelled explicitly (`Option String` with the empty
string treated as falsy, exactly as `if (obj[k])` behaves in JS).
-/

/-- A single quote character, used when emitting string-literal unions. -/
def squote : String := ⟨[Char.ofNat 39]⟩

/-- Wrap a name in single quotes, as the generators do with template
strings when emitting possible-type-name unions. -/
def q1 (s : String) : String := squote ++ s ++ squote

/-- JS `Array.prototype.join(sep)`. -/
def joinSep (sep : String) : List String → String
  | [] => ""
  | [s] => s
  | s :: rest => s ++ sep ++ joinSep sep rest

/-- JS `Array.prototype.join(' ')`, the join used by `getTypeRef` on the
modifier token list. -/
def joinSpace (l : List String) : String := joinSep " " l

/-- `Except` success test (JS: the call did not throw). -/
def isOkE {α : Type} (e : Except String α) : Bool :=
  match e with
  | .ok _ => true
  | .error _ => false

/-- Embedding of `SimpleTypeDescription` from `utils.ts`. -/
structure SimpleTypeDescription where
  kind : String
  name : String
deriving DecidableEq

/-- Embedding of `isBuiltinType` from `utils.ts`: check if a type is a
built-in graphql type. -/
def isBuiltinType (type : SimpleTypeDescription) : Bool :=
  let builtInScalarNames := ["Int", "Float", "String", "Boolean", "ID"]
  let builtInEnumNames := ["__TypeKind", "__DirectiveLocation"]
  let builtInObjectNames :=
    ["__Schema", "__Type", "__Field", "__InputValue", "__Directive", "__EnumValue"]
  (type.kind == "SCALAR" && builtInScalarNames.contains type.name) ||
  (type.kind == "ENUM" && builtInEnumNames.contains type.name) ||
  (type.kind == "OBJECT" && builtInObjectNames.contains type.name)

/-- Embedding of `gqlScalarToTS` from `utils.ts`. -/
def gqlScalarToTS (scalarName : String) (typePrefix : String) : String :=
  if scalarName = "Int" then "number"
  else if scalarName = "Float" then "number"
  else if scalarName = "String" then "string"
  else if scalarName = "ID" then "string"
  else if scalarName = "Boolean" then "boolean"
  else typePrefix ++ scalarName

/-- Embedding of `getTsTypeName` from `utils.ts`: the typescript name for a
GraphQL name. -/
def getTsTypeName (gqlName : String) (kind : String) (typePrefix : String) : String :=
  if kind = "SCALAR" then gqlScalarToTS gqlName typePrefix
  else typePrefix ++ gqlName

/-- Embedding of the `TypeRef` interface from `utils.ts`: a reference to a
specific type, with the modifier chain already joined into a string. -/
structure TypeRef where
  modifier : String
  name : String
  kind : String
deriving DecidableEq

/-- An introspection type reference as it appears on a field: a chain of
LIST / NON_NULL wrappers terminating in a named type. -/
inductive TypeRefTree where
  | named (kind : String) (name : String)
  | list (ofType : TypeRefTree)
  | nonNull (ofType : TypeRefTree)
deriving DecidableEq

/-- The modifier tokens peeled outer-to-inner by `getTypeRef`'s while loop. -/
def collectModifier : TypeRefTree → List String
  | .named _ _ => []
  | .list t => "LIST" :: collectModifier t
  | .nonNull t => "NON_NULL" :: collectModifier t

/-- The kind of the named leaf reached by `getTypeRef`'s while loop. -/
def leafKind : TypeRefTree → String
  | .named k _ => k
  | .list t => leafKind t
  | .nonNull t => leafKind t

/-- The name of the named leaf reached by `getTypeRef`'s while loop. -/
def leafName : TypeRefTree → String
  | .named _ n => n
  | .list t => leafName t
  | .nonNull t => leafName t

/-- Number of LIST wrappers in the modifier chain. -/
def listCount : TypeRefTree → Nat
  | .named _ _ => 0
  | .list t => 1 + listCount t
  | .nonNull t => listCount t

/-- Embedding of `getTypeRef` from `utils.ts` (it receives a field and reads
`field.type`; here it receives that type directly): peel LIST and NON_NULL
wrappers in encountered order and join them with a space. -/
def getTypeRef (ty : TypeRefTree) : TypeRef :=
  ⟨joinSpace (collectModifier ty), leafName ty, leafKind ty⟩

/-- Embedding of `getModifiedTsTypeName` from `utils.ts` (final variant):
the switch over the joined modifier string, with `throw` modelled as
`Except.error` carrying the thrown message. -/
def getModifiedTsTypeName (ref : TypeRef) (typePrefix : String) : Except String String :=
  let tsTypeName := getTsTypeName ref.name ref.kind typePrefix
  if ref.modifier = "" then .ok (tsTypeName ++ " | null")
  else if ref.modifier = "NON_NULL" then .ok tsTypeName
  else if ref.modifier = "LIST" then .ok ("(" ++ tsTypeName ++ " | null)[] | null")
  else if ref.modifier = "LIST NON_NULL" then .ok (tsTypeName ++ "[] | null")
  else if ref.modifier = "NON_NULL LIST" then .ok ("(" ++ tsTypeName ++ " | null)[]")
  else if ref.modifier = "NON_NULL LIST NON_NULL" then .ok (tsTypeName ++ "[]")
  else if ref.modifier = "LIST NON_NULL LIST NON_NULL" then
    .error "Theretically impossible type?"
  else if ref.modifier = "NON_NULL LIST NON_NULL LIST NON_NULL" then
    .error "Theretically impossible type?"
  else
    .error ("We are reaching the fieldModifier level that should not exists: " ++ ref.modifier)

/-- Embedding of `createFieldRef` from `utils.ts` (final variant, taking a
`TypeRef`): it first calls `getModifiedTsTypeName` (whose throw propagates)
and then decides the optionality marker from the same modifier string. -/
def createFieldRef (fieldName : String) (ref : TypeRef) (typePrefix : String) :
    Except String String :=
  match getModifiedTsTypeName ref typePrefix with
  | .error e => .error e
  | .ok modifiedTsTypeName =>
    if ref.modifier = "" then .ok (fieldName ++ "?: " ++ modifiedTsTypeName)
    else if ref.modifier = "NON_NULL" then .ok (fieldName ++ ": " ++ modifiedTsTypeName)
    else if ref.modifier = "LIST" then .ok (fieldName ++ "?: " ++ modifiedTsTypeName)
    else if ref.modifier = "LIST NON_NULL" then .ok (fieldName ++ "?: " ++ modifiedTsTypeName)
    else if ref.modifier = "NON_NULL LIST" then .ok (fieldName ++ ": " ++ modifiedTsTypeName)
    else if ref.modifier = "NON_NULL LIST NON_NULL" then
      .ok (fieldName ++ ": " ++ modifiedTsTypeName)
    else if ref.modifier = "LIST NON_NULL LIST NON_NULL" then
      .error "Theretically impossible type?"
    else if ref.modifier = "NON_NULL LIST NON_NULL LIST NON_NULL" then
      .error "Theretically impossible type?"
    else
      .error ("We are reaching the fieldModifier level that should not exists: " ++ ref.modifier)

/-- Embedding of the historical string-based `createFieldRef` kept in the
second half of `utils.ts` (signature `(fieldName, refName, refModifier)`).
Unlike the final variant, it renders the two explicit double-LIST modifier
strings as nested arrays instead of throwing. -/
def createFieldRefLegacy (fieldName : String) (refName : String) (refModifier : String) :
    Except String String :=
  if refModifier = "" then .ok (fieldName ++ "?: " ++ refName)
  else if refModifier = "NON_NULL" then .ok (fieldName ++ ": " ++ refName)
  else if refModifier = "LIST" then .ok (fieldName ++ "?: (" ++ refName ++ " | null)[]")
  else if refModifier = "LIST NON_NULL" then .ok (fieldName ++ "?: " ++ refName ++ "[]")
  else if refModifier = "NON_NULL LIST" then .ok (fieldName ++ ": (" ++ refName ++ " | null)[]")
  else if refModifier = "NON_NULL LIST NON_NULL" then .ok (fieldName ++ ": " ++ refName ++ "[]")
  else if refModifier = "LIST NON_NULL LIST NON_NULL" then
    .ok (fieldName ++ "?: " ++ refName ++ "[][]")
  else if refModifier = "NON_NULL LIST NON_NULL LIST NON_NULL" then
    .ok (fieldName ++ ": " ++ refName ++ "[][]")
  else
    .error ("We are reaching the fieldModifier level that should not exists: " ++ refModifier)

/-- Embedding of `toUppercaseFirst` from `utils.ts`. -/
def toUppercaseFirst (value : String) : String :=
  match value.data with
  | [] => ""
  | c :: rest => ⟨c.toUpper :: rest⟩

/-- Number of capital `T` characters in a string; each `LIST` token in a
joined modifier string contributes exactly one and `NON_NULL` none, so this
counts the LIST tokens of a joined modifier chain. -/
def countT (s : String) : Nat := s.data.count 'T'

/-- JS `String.prototype.split(c)` on a character list: splits at every
occurrence, `[] ↦ [[]]`. -/
def jsSplitAux (c : Char) : List Char → List Char → List (List Char)
  | [], acc => [acc.reverse]
  | x :: rest, acc =>
    if x = c then acc.reverse :: jsSplitAux c rest []
    else jsSplitAux c rest (x :: acc)

/-- JS `String.prototype.split(c)` for a single-character separator. -/
def jsSplit (c : Char) (s : String) : List String :=
  (jsSplitAux c s.data []).map (fun l => ⟨l⟩)

/-- JS `String.prototype.replace(/ \| /g, ' |\n')`, the re-flow step of the
union wrapper, with a fuel argument for structural recursion. -/
def replaceBarAux : Nat → List Char → List Char
  | 0, l => l
  | _ + 1, [] => []
  | fuel + 1, ' ' :: '|' :: ' ' :: rest => ' ' :: '|' :: '\n' :: replaceBarAux fuel rest
  | fuel + 1, x :: rest => x :: replaceBarAux fuel rest

/-- Replace every occurrence of the union-member separator, left to right. -/
def replaceBar (s : String) : String := ⟨replaceBarAux s.data.length s.data⟩

/-- JS `String.prototype.trim()` (only ASCII whitespace occurs here). -/
def trimStr (s : String) : String :=
  ⟨((s.data.dropWhile Char.isWhitespace).reverse.dropWhile Char.isWhitespace).reverse⟩

/-- Embedding of `createTsUnionType` from `utils.ts`: render a one-line
union alias, re-flowing it at member separators when it exceeds 80 columns.
The JS `result.split('=')` destructures the first two pieces. -/
def createTsUnionType (typeName : String) (possibleTypes : List String)
    (typePrefix : String) : List String :=
  let result := "export type " ++ typePrefix ++ typeName ++ " = " ++
    joinSep " | " possibleTypes ++ ";"
  if result.length ≤ 80 then [result]
  else
    let parts := jsSplit '=' result
    let firstLine := parts.headD ""
    let rest := (parts.drop 1).headD ""
    (firstLine ++ "=") :: ((jsSplit '\n' (replaceBar rest)).map trimStr)

/-- The line-wrapping step of `createTsUnionType` as a transformation on a
single already-rendered line (the spec's LineWrapFormatter): keep a line
within the 80-column budget, otherwise re-flow it after the first `=` and
at member separators.  A line with no `=` makes the JS destructuring yield
`undefined` and the subsequent `.replace` call throw a TypeError, modelled
as an error. -/
def wrapLine (line : String) : Except String (List String) :=
  if line.length ≤ 80 then .ok [line]
  else
    match jsSplit '=' line with
    | [] => .error "TypeError: undefined"
    | [_] => .error "TypeError: undefined"
    | firstLine :: rest :: _ =>
      .ok ((firstLine ++ "=") :: ((jsSplit '\n' (replaceBar rest)).map trimStr))

/-- Apply the wrapping step to every line of an already-rendered block;
used to state the re-wrapping (idempotence) property. -/
def rewrapLines : List String → Except String (List String)
  | [] => .ok []
  | l :: ls =>
    match wrapLine l with
    | .error e => .error e
    | .ok h =>
      match rewrapLines ls with
      | .error e => .error e
      | .ok t => .ok (h ++ t)

/-- Embedding of the `GraphqlDescription` interface from `utils.ts`. -/
structure GraphqlDescription where
  description : Option String
  isDeprecated : Bool
  deprecationReason : Option String
deriving DecidableEq

/-- JS `String.prototype.split('\n')` used by `descriptionToJSDoc`. -/
def splitNl (s : String) : List String := jsSplit '\n' s

/-- Embedding of `descriptionToJSDoc` from `utils.ts`: convert description
and deprecated directives into a JSDoc block (JS truthiness of the optional
strings modelled as non-empty). -/
def descriptionToJSDoc (d : GraphqlDescription) : List String :=
  let line := d.description.getD ""
  let line :=
    if d.isDeprecated then
      let l := line ++ "\n@deprecated"
      match d.deprecationReason with
      | some r => if r = "" then l else l ++ " " ++ r
      | none => l
    else line
  if line = "" then []
  else ["/**"] ++ (splitNl line).map (fun l => " * " ++ l) ++ [" */"]

/-- An enum value of an introspection Enum type. -/
structure EnumVal where
  name : String
  description : Option String
  isDeprecated : Bool
  deprecationReason : Option String
deriving DecidableEq

/-- An introspection input value (input-object field or field argument). -/
structure InputValue where
  name : String
  description : Option String
  type : TypeRefTree
deriving DecidableEq

/-- An introspection field of an Object or Interface type (named `GField`
because Lean already has a `Field` class). -/
structure GField where
  name : String
  description : Option String
  args : List InputValue
  type : TypeRefTree
  isDeprecated : Bool
  deprecationReason : Option String
deriving DecidableEq

/-- A named type reference as it appears in `interfaces` / `possibleTypes`
lists of introspection results. -/
structure NamedRef where
  kind : String
  name : String
deriving DecidableEq

/-- One introspection TypeNode.  The kind is kept as an open string tag
(as in the JSON introspection result); only the attributes relevant to the
node's kind are populated, the rest stay empty, mirroring the untyped JS
objects the generators receive. -/
structure TypeNode where
  kind : String
  name : String
  description : Option String
  enumValues : List EnumVal
  inputFields : List InputValue
  fields : List GField
  interfaces : List NamedRef
  possibleTypes : List NamedRef
deriving DecidableEq

/-- The resolver sub-options of `GenerateTypescriptOptions`. -/
structure ResolverOptions where
  contextType : String
  importContext : Option String
deriving DecidableEq

/-- Embedding of `GenerateTypescriptOptions`: the configuration consumed by
both generators.  `customScalarType` is the override mapping (a JS object,
modelled as a partial lookup).  `stringEnumSupported` stands for the
environment probe `isStringEnumSupported()` in `utils.ts`, which only reads
the ambient TypeScript version. -/
structure GenerateTypescriptOptions where
  typePrefix : String
  customScalarType : String → Option String
  globalFlag : Bool
  minimizeInterfaceImplementation : Bool
  resolver : Option ResolverOptions
  stringEnumSupported : Bool

/-- Embedding of `SimpleTypesGenerator.generateCustomScalarType`: the JS
truthiness test `if (customScalarType[scalarType.name])` treats a missing
entry and an empty-string entry alike. -/
def generateCustomScalarType (opts : GenerateTypescriptOptions) (scalarType : TypeNode) :
    List String :=
  match opts.customScalarType scalarType.name with
  | some v =>
    if v = "" then ["export type " ++ opts.typePrefix ++ scalarType.name ++ " = any;"]
    else ["export type " ++ opts.typePrefix ++ scalarType.name ++ " = " ++ v ++ ";"]
  | none => ["export type " ++ opts.typePrefix ++ scalarType.name ++ " = any;"]

/-- Embedding of `SimpleTypesGenerator.generateEnumType` (final variant). -/
def generateEnumType (opts : GenerateTypescriptOptions) (enumType : TypeNode) : List String :=
  if !opts.stringEnumSupported then
    createTsUnionType enumType.name (enumType.enumValues.map (fun v => q1 v.name))
      opts.typePrefix
  else if opts.globalFlag then
    createTsUnionType enumType.name (enumType.enumValues.map (fun v => q1 v.name))
      opts.typePrefix ++
    ["// NOTE: enum " ++ enumType.name ++
      " is generate as string union instead of string enum because the types is generated under global scope"]
  else
    let n := enumType.enumValues.length
    let enumBody := (enumType.enumValues.enum).foldl
      (fun (prev : List String) (p : Nat × EnumVal) =>
        let enumValue := p.2
        let jsDoc := descriptionToJSDoc
          ⟨enumValue.description, enumValue.isDeprecated, enumValue.deprecationReason⟩
        let isLastEnum := p.1 = n - 1
        if !isLastEnum then
          prev ++ (jsDoc ++ [enumValue.name ++ " = " ++ q1 enumValue.name ++ ","])
        else
          prev ++ (jsDoc ++ [enumValue.name ++ " = " ++ q1 enumValue.name])) []
    ["export enum " ++ opts.typePrefix ++ enumType.name ++ " \x7b"] ++ enumBody ++ ["\x7d"]

/-- Embedding of `SimpleTypesGenerator.generateInputObjectType` (final
variant); field rendering can throw through `createFieldRef`. -/
def generateInputObjectType (opts : GenerateTypescriptOptions) (objectType : TypeNode) :
    Except String (List String) := do
  let objectFields ← objectType.inputFields.foldlM
    (fun (prev : List String) (field : InputValue) => do
      let fieldJsDoc := descriptionToJSDoc ⟨field.description, false, none⟩
      let fieldNameAndType ← createFieldRef field.name (getTypeRef field.type) opts.typePrefix
      let defs := fieldJsDoc ++ [fieldNameAndType]
      let defs := if fieldJsDoc.length > 0 then "" :: defs else defs
      pure (prev ++ defs)) []
  pure (["export interface " ++ opts.typePrefix ++ objectType.name ++ " \x7b"] ++
    objectFields ++ ["\x7d"])

/-- Embedding of `SimpleTypesGenerator.generateUnionType` (final variant):
the alias over possible types, the string-literal name union and the
name-map interface. -/
def generateUnionType (opts : GenerateTypescriptOptions) (unionType : TypeNode) :
    List String :=
  let possibleTypesNames :=
    ["", "/** Use this to resolve union type " ++ unionType.name ++ " */"] ++
    createTsUnionType ("Possible" ++ unionType.name ++ "TypeNames")
      (unionType.possibleTypes.map (fun pt => q1 pt.name)) opts.typePrefix
  let possibleTypeNamesMap :=
    ["", "export interface " ++ opts.typePrefix ++ unionType.name ++ "NameMap \x7b",
      unionType.name ++ ": " ++ opts.typePrefix ++ unionType.name ++ ";"] ++
    (unionType.possibleTypes.map (fun pt =>
      pt.name ++ ": " ++ opts.typePrefix ++ pt.name ++ ";")) ++
    ["\x7d"]
  let unionTypeTSDefs := createTsUnionType unionType.name
    (unionType.possibleTypes.map (fun t =>
      if isBuiltinType ⟨t.kind, t.name⟩ then t.name else opts.typePrefix ++ t.name))
    opts.typePrefix
  unionTypeTSDefs ++ possibleTypesNames ++ possibleTypeNamesMap

/-- One step of `SimpleTypesGenerator.generate`'s reduce over the filtered
type list: Object and Interface nodes are left to the resolver generator,
the four simple kinds emit a block followed by a blank line, and any other
kind tag throws. -/
def simpleGenStep (opts : GenerateTypescriptOptions) (prev : List String)
    (gqlType : TypeNode) : Except String (List String) :=
  let jsDoc := descriptionToJSDoc ⟨gqlType.description, false, none⟩
  if gqlType.kind = "OBJECT" ∨ gqlType.kind = "INTERFACE" then .ok prev
  else if gqlType.kind = "SCALAR" then
    .ok (prev ++ (jsDoc ++ generateCustomScalarType opts gqlType ++ [""]))
  else if gqlType.kind = "ENUM" then
    .ok (prev ++ (jsDoc ++ generateEnumType opts gqlType ++ [""]))
  else if gqlType.kind = "INPUT_OBJECT" then do
    let defs ← generateInputObjectType opts gqlType
    .ok (prev ++ (jsDoc ++ defs ++ [""]))
  else if gqlType.kind = "UNION" then
    .ok (prev ++ (jsDoc ++ generateUnionType opts gqlType ++ [""]))
  else .error ("Unknown type kind " ++ gqlType.kind)

/-- Embedding of `SimpleTypesGenerator.generate`: filter out built-in
types, then reduce with `simpleGenStep`. -/
def simpleGenerate (opts : GenerateTypescriptOptions) (types : List TypeNode) :
    Except String (List String) :=
  (types.filter (fun t => !isBuiltinType ⟨t.kind, t.name⟩)).foldlM (simpleGenStep opts) []

/-- The two mutable line lists of `ResolverTypesGenerator`
(`allResolversInterface` entries and `resolverInterfaces`), threaded
through the traversal as explicit state. -/
structure ResolverAcc where
  allResolvers : List String
  resolverInterfaces : List String
deriving DecidableEq

/-- Embedding of `GenerateResolversResult`. -/
structure GenerateResolversResult where
  importHeader : List String
  body : List String
deriving DecidableEq

/-- The context type picked by `ResolverTypesGenerator`'s constructor. -/
def resolverContextType (opts : GenerateTypescriptOptions) : String :=
  match opts.resolver with
  | some r => r.contextType
  | none => "any"

/-- The import line the constructor pushes when `resolver.importContext`
is truthy. -/
def resolverImportContextHeader (opts : GenerateTypescriptOptions) : List String :=
  match opts.resolver with
  | some r =>
    match r.importContext with
    | some ic => if ic = "" then [] else [ic]
    | none => []
  | none => []

/-- Embedding of `ResolverTypesGenerator.generateCustomScalarResolver`. -/
def generateCustomScalarResolver (acc : ResolverAcc) (scalarType : TypeNode) : ResolverAcc :=
  ⟨acc.allResolvers ++ [scalarType.name ++ "?: GraphQLScalarType"], acc.resolverInterfaces⟩

/-- Embedding of `ResolverTypesGenerator.generateResolveTypeResolver`: the
`__resolveType` function type for a Union or Interface. -/
def generateResolveTypeResolver (opts : GenerateTypescriptOptions) (ctx : String)
    (acc : ResolverAcc) (type : TypeNode) : ResolverAcc :=
  let possibleTypes := type.possibleTypes.map (fun pt => q1 pt.name)
  let typeResolverName := opts.typePrefix ++ type.name ++ "_TypeResolver"
  ⟨acc.allResolvers ++
      [type.name ++ "?: \x7b  __resolveType: " ++ typeResolverName ++ " \x7d"],
    acc.resolverInterfaces ++
      ["", "// MARK: --- " ++ typeResolverName, "",
        "export type " ++ typeResolverName ++ "<P = \x7b\x7d> = GQLTypeResolver<P, " ++
          ctx ++ ", " ++ joinSep " | " possibleTypes ++ ">"]⟩

/-- Embedding of `ResolverTypesGenerator.generateObjectFieldResolver`:
produce the (typeResolverBody, fieldResolversTypeDefs) contributions of one
field, throwing through `createFieldRef` / `getModifiedTsTypeName`. -/
def generateObjectFieldResolver (opts : GenerateTypescriptOptions) (ctx : String)
    (objectTypeName : String) (field : GField) :
    Except String (List String × List String) := do
  let uppercaseFirstFieldName := toUppercaseFirst field.name
  let (argsType, argsDefs) ←
    if field.args.length > 0 then do
      let argsType := objectTypeName ++ "_" ++ uppercaseFirstFieldName ++ "_Args"
      let argsBody ← field.args.foldlM
        (fun (body : List String) (arg : InputValue) => do
          let fr ← createFieldRef arg.name (getTypeRef arg.type) opts.typePrefix
          pure (body ++ [fr])) []
      let argsTypeDefs :=
        "export interface " ++ argsType ++ " \x7b" ++ " " ++
          joinSep ", " argsBody ++ " " ++ "\x7d"
      pure (argsType, (["", argsTypeDefs] : List String))
    else pure ("\x7b\x7d", ([] : List String))
  let fieldResolverName := objectTypeName ++ "_" ++ uppercaseFirstFieldName
  let typeName ← getModifiedTsTypeName (getTypeRef field.type) opts.typePrefix
  let fieldJsDocs := descriptionToJSDoc
    ⟨field.description, field.isDeprecated, field.deprecationReason⟩
  pure ([field.name ++ "?: " ++ fieldResolverName ++ "<P>"],
    argsDefs ++ fieldJsDocs ++
      ["export type " ++ fieldResolverName ++ "<P> = GQLPropertyOrResolver<" ++
        typeName ++ ", P, " ++ argsType ++ ", " ++ ctx ++ ">"])

/-- Embedding of `ResolverTypesGenerator.generateObjectResolver` (final
variant).  Note that `extendTypes` holds the implemented-interface names
suffixed with `<P>`, and those suffixed names are what the lookup against
`allGQLTypes` compares with each node's plain `name`. -/
def generateObjectResolver (opts : GenerateTypescriptOptions) (ctx : String)
    (allGQLTypes : List TypeNode) (acc : ResolverAcc) (gqlType : TypeNode) :
    Except String ResolverAcc := do
  let extendTypes : List String :=
    if gqlType.kind = "OBJECT" then gqlType.interfaces.map (fun i => i.name ++ "<P>")
    else []
  let extendGqlTypes := allGQLTypes.filter (fun t => extendTypes.contains t.name)
  let extendFields := extendGqlTypes.foldl
    (fun (prev : List String) t => prev ++ t.fields.map (fun f => f.name)) []
  let typeResolverName := opts.typePrefix ++ gqlType.name
  let bodyAndDefs ← gqlType.fields.foldlM
    (fun (pr : List String × List String) (field : GField) =>
      if extendFields.contains field.name && opts.minimizeInterfaceImplementation then
        pure pr
      else do
        let res ← generateObjectFieldResolver opts ctx gqlType.name field
        pure (pr.1 ++ res.1, pr.2 ++ res.2)) (([], []) : List String × List String)
  let objectJsDoc := descriptionToJSDoc ⟨gqlType.description, false, none⟩
  let possibleTypeNames : List String :=
    if gqlType.kind = "INTERFACE" then
      ["", "/** Use this to resolve interface type " ++ gqlType.name ++ " */"] ++
      createTsUnionType ("Possible" ++ gqlType.name ++ "TypeNames")
        (gqlType.possibleTypes.map (fun pt => q1 pt.name)) opts.typePrefix
    else []
  let possibleTypeNamesMap : List String :=
    if gqlType.kind = "INTERFACE" then
      ["", "export interface " ++ opts.typePrefix ++ gqlType.name ++ "NameMap \x7b",
        gqlType.name ++ ": " ++ opts.typePrefix ++ gqlType.name] ++
      (gqlType.possibleTypes.map (fun pt =>
        pt.name ++ ": " ++ opts.typePrefix ++ pt.name)) ++
      ["\x7d"]
    else []
  let extendStr :=
    if extendTypes.length = 0 then ""
    else "extends " ++ joinSep ", " (extendTypes.map (fun t => opts.typePrefix ++ t)) ++ " "
  let acc1 : ResolverAcc :=
    ⟨acc.allResolvers,
      acc.resolverInterfaces ++
        ["", "// MARK: --- " ++ typeResolverName, ""] ++ objectJsDoc ++
        ["export interface " ++ typeResolverName ++ "<P = \x7b\x7d> " ++ extendStr ++ "\x7b"] ++
        bodyAndDefs.1 ++ ["\x7d", "", ""] ++ bodyAndDefs.2 ++
        possibleTypeNames ++ possibleTypeNamesMap⟩
  if gqlType.kind = "OBJECT" then
    pure ⟨acc1.allResolvers ++ [gqlType.name ++ "?: " ++ typeResolverName],
      acc1.resolverInterfaces⟩
  else
    pure acc1

/-- One step of `ResolverTypesGenerator.generate`'s forEach.  The switch
has no default case: kinds other than SCALAR / OBJECT / INTERFACE / UNION
(including ENUM, INPUT_OBJECT and unrecognized tags) contribute nothing. -/
def resolverStep (opts : GenerateTypescriptOptions) (ctx : String)
    (allGQLTypes : List TypeNode) (acc : ResolverAcc) (type : TypeNode) :
    Except String ResolverAcc :=
  if type.kind = "SCALAR" then .ok (generateCustomScalarResolver acc type)
  else if type.kind = "OBJECT" then generateObjectResolver opts ctx allGQLTypes acc type
  else if type.kind = "INTERFACE" then do
    let acc1 ← generateObjectResolver opts ctx allGQLTypes acc type
    .ok (generateResolveTypeResolver opts ctx acc1 type)
  else if type.kind = "UNION" then .ok (generateResolveTypeResolver opts ctx acc type)
  else .ok acc

/-- The fixed preamble `generate` seeds `allResolversInterface` with. -/
def allResolversPreamble : List String :=
  ["",
   "export type Value<T> = T | Promise<T>",
   "/**",
   " * The reason property is nullable even for non-null field is because we do not in the model",
   " * whether the field is or possibly implemented by the resolver.",
   " * If a resolve function is not given, then a default resolve behavior is used",
   " * which takes the property of the source object of the same name as the field",
   " * and returns it as the Value, or if it" ++ squote ++ "s a function, returns the Value",
   " * of calling that function while passing along args, context and info.",
   " * NOTE how the function signature does not have parent",
   " */",
   "export type GQLProperty<T, Args, Ctx> = Value<T | null> | ((args: Args, context: Ctx, info: GraphQLResolveInfo) => Value<T>)",
   "",
   "export type GQLResolver<T, P, Args, Ctx> = ((parent: P, args: Args, context: Ctx, info: GraphQLResolveInfo) => Value<T>)",
   "/**",
   " * When used as properties of the return value of an existing resolver, this really should be",
   " * Value<T> instead -> So resolvers should not be returning other resolver-like objects",
   " * In practice the implementation \x22sort of\x22 allows it (see above)",
   " * TODO: Finish correct type def for model separate from resolver",
   " */",
   "export type GQLPropertyOrResolver<T, P, Args, Ctx> = GQLProperty<T, Args, Ctx> | GQLResolver<T, P, Args, Ctx>",
   "",
   "export type GQLTypeResolver<P, Ctx, T> = ",
   "  (parent: P, context: Ctx, info: GraphQLResolveInfo) => T",
   "/**",
   " * This interface define the shape of your resolver",
   " * Note that this type is designed to be compatible with graphql-tools resolvers",
   " * However, you can still use other generated interfaces to make your resolver type-safed",
   " */",
   "export interface AllResolvers \x7b"]

/-- Embedding of `ResolverTypesGenerator.generate`: filter built-ins,
choose the graphql import line, walk the types with `resolverStep`, close
the AllResolvers interface and assemble the result. -/
def resolverGenerate (opts : GenerateTypescriptOptions) (types : List TypeNode) :
    Except String GenerateResolversResult := do
  let ctx := resolverContextType opts
  let gqlTypes := types.filter (fun t => !isBuiltinType ⟨t.kind, t.name⟩)
  let hasCustomScalar := gqlTypes.any (fun t => t.kind == "SCALAR")
  let importHeaderLines := resolverImportContextHeader opts ++
    [if hasCustomScalar then
      "import \x7b GraphQLResolveInfo, GraphQLScalarType \x7d from " ++ q1 "graphql"
     else
      "import \x7b GraphQLResolveInfo \x7d from " ++ q1 "graphql"]
  let acc ← gqlTypes.foldlM (resolverStep opts ctx gqlTypes) (⟨[], []⟩ : ResolverAcc)
  pure ⟨importHeaderLines,
    (allResolversPreamble ++ acc.allResolvers ++ ["\x7d"]) ++ acc.resolverInterfaces⟩

/-- Project the body lines out of a resolver generation outcome (empty on
a thrown error), for stating membership facts about concrete runs. -/
def bodyOf (e : Except String GenerateResolversResult) : List String :=
  match e with
  | .ok r => r.body
  | .error _ => []

/-- Project the `resolverInterfaces` lines out of a single
`generateObjectResolver`-style outcome (empty on a thrown error). -/
def ifacesOf (e : Except String ResolverAcc) : List String :=
  match e with
  | .ok a => a.resolverInterfaces
  | .error _ => []

/-- Embedding of `ResolversGenerator.generateObjectFieldResolver` from the
historical `ResolversGenerator` variant (src/unnamed/part_001): field
resolver types are named `{Owner}_{UppercasedField}_Resolver` and default
their parent parameter to the owner's model type. -/
def p001GenerateObjectFieldResolver (opts : GenerateTypescriptOptions) (ctx : String)
    (objectTypeName : String) (parentTypeName : String) (field : GField) :
    Except String (List String × List String) := do
  let uppercaseFirstFieldName := toUppercaseFirst field.name
  let (argsType, argsDefs) ←
    if field.args.length > 0 then do
      let argsType := objectTypeName ++ "_" ++ uppercaseFirstFieldName ++ "_Args"
      let argsBody ← field.args.foldlM
        (fun (body : List String) (arg : InputValue) => do
          let fr ← createFieldRef arg.name (getTypeRef arg.type) opts.typePrefix
          pure (body ++ [fr])) []
      let argsTypeDefs :=
        "export interface " ++ argsType ++ " \x7b" ++ " " ++
          joinSep ", " argsBody ++ " " ++ "\x7d"
      pure (argsType, (["", argsTypeDefs] : List String))
    else pure ("\x7b\x7d", ([] : List String))
  let fieldResolverName := objectTypeName ++ "_" ++ uppercaseFirstFieldName ++ "_Resolver"
  let typeName ← getModifiedTsTypeName (getTypeRef field.type) opts.typePrefix
  let fieldJsDocs := descriptionToJSDoc
    ⟨field.description, field.isDeprecated, field.deprecationReason⟩
  pure ([field.name ++ "?: " ++ fieldResolverName ++ "<P>"],
    argsDefs ++ fieldJsDocs ++
      ["export type " ++ fieldResolverName ++ "<P = " ++ parentTypeName ++
        "> = GQLResolver<" ++ typeName ++ ", P, " ++ argsType ++ ", " ++ ctx ++ ">"])

/-- Embedding of `ResolversGenerator.generateObjectResolver` from the
historical variant (src/unnamed/part_001).  Here `extendTypes` holds the
plain implemented-interface names, so the lookup against `allGQLTypes`
really finds the implemented interfaces and `extendFields` collects their
field names for the merge. -/
def p001GenerateObjectResolver (opts : GenerateTypescriptOptions) (ctx : String)
    (rootValueType : String) (allGQLTypes : List TypeNode) (rootTypeNames : List String)
    (acc : ResolverAcc) (gqlType : TypeNode) : Except String ResolverAcc := do
  let extendTypes : List String :=
    if gqlType.kind = "OBJECT" then gqlType.interfaces.map (fun i => i.name)
    else []
  let extendGqlTypes := allGQLTypes.filter (fun t => extendTypes.contains t.name)
  let extendFields := extendGqlTypes.foldl
    (fun (prev : List String) t => prev ++ t.fields.map (fun f => f.name)) []
  let isRootType := rootTypeNames.contains gqlType.name
  let typeName := if isRootType then rootValueType else opts.typePrefix ++ gqlType.name
  let typeResolversName := opts.typePrefix ++ gqlType.name ++ "Resolvers"
  let bodyAndDefs ← gqlType.fields.foldlM
    (fun (pr : List String × List String) (field : GField) =>
      if extendFields.contains field.name && opts.minimizeInterfaceImplementation then
        pure pr
      else do
        let res ← p001GenerateObjectFieldResolver opts ctx gqlType.name typeName field
        pure (pr.1 ++ res.1, pr.2 ++ res.2)) (([], []) : List String × List String)
  let objectJsDoc := descriptionToJSDoc ⟨gqlType.description, false, none⟩
  let extendStr :=
    if extendTypes.length = 0 then ""
    else "extends " ++
      joinSep ", " (extendTypes.map (fun t => opts.typePrefix ++ t ++ "Resolvers<P>")) ++ " "
  let acc1 : ResolverAcc :=
    ⟨acc.allResolvers,
      acc.resolverInterfaces ++
        ["", "// MARK: --- " ++ typeResolversName, ""] ++ objectJsDoc ++
        ["export interface " ++ typeResolversName ++ "<P = " ++ typeName ++ "> " ++
          extendStr ++ "\x7b"] ++
        bodyAndDefs.1 ++ ["\x7d", "", ""] ++ bodyAndDefs.2⟩
  if gqlType.kind = "OBJECT" then
    pure ⟨acc1.allResolvers ++ [gqlType.name ++ "?: " ++ typeResolversName],
      acc1.resolverInterfaces⟩
  else
    pure acc1

/-- The closed set of kind tags both generators dispatch on. -/
def knownKinds : List String :=
  ["SCALAR", "ENUM", "INPUT_OBJECT", "OBJECT", "INTERFACE", "UNION"]

/-- Number of `"LIST"` tokens in a modifier token list. -/
def countLIST : List String → Nat
  | [] => 0
  | s :: rest => (if s = "LIST" then 1 else 0) + countLIST rest

/-- Options fixture: prefix `GQL`, no scalar overrides, inherited-field
merging enabled. -/
def optsMin : GenerateTypescriptOptions := ⟨"GQL", fun _ => none, false, true, none, true⟩

/-- Options fixture: as `optsMin` but with inherited-field merging off. -/
def optsNoMin : GenerateTypescriptOptions := ⟨"GQL", fun _ => none, false, false, none, true⟩

/-- Field fixture: `x: String!`. -/
def fieldX : GField := ⟨"x", none, [], .nonNull (.named "SCALAR" "String"), false, none⟩

/-- Interface fixture: `interface A { x: String! }` implemented by `B`. -/
def ifaceA : TypeNode := ⟨"INTERFACE", "A", none, [], [], [fieldX], [], [⟨"OBJECT", "B"⟩]⟩

/-- Object fixture: `type B implements A { x: String! }`. -/
def objB : TypeNode := ⟨"OBJECT", "B", none, [], [], [fieldX], [⟨"INTERFACE", "A"⟩], []⟩

/-- Graph fixture for the inheritance-merge scenario. -/
def mergeGraph : List TypeNode := [ifaceA, objB]

/-- Object fixture implementing an interface `A` that exists in no graph. -/
def objDangling : TypeNode := ⟨"OBJECT", "B", none, [], [], [fieldX], [⟨"INTERFACE", "A"⟩], []⟩

/-- A 100-character type name, long enough that even the re-flowed first
line of a union alias exceeds the 80-column budget. -/
def longAs : String := ⟨List.replicate 100 'A'⟩

/-- A TypeNode whose kind tag lies outside the closed kind set. -/
def bogusNode : TypeNode := ⟨"BOGUS", "Z", none, [], [], [], [], []⟩

/-- Options fixture carrying an empty-string scalar override for
`DateTime` (a present but JS-falsy entry). -/
def dtOpts : GenerateTypescriptOptions :=
  ⟨"GQL", (fun n => if n = "DateTime" then some "" else none), false, false, none, true⟩

/-- Options fixture carrying the override `{DateTime: "string"}`. -/
def dtStrOpts : GenerateTypescriptOptions :=
  ⟨"GQL", (fun n => if n = "DateTime" then some "string" else none), false, false, none, true⟩

/-- Scalar fixture: custom scalar `DateTime`. -/
def dtScalar : TypeNode := ⟨"SCALAR", "DateTime", none, [], [], [], [], []⟩

/-- Built-in scalar fixture: `Int`. -/
def intScalar : TypeNode := ⟨"SCALAR", "Int", none, [], [], [], [], []⟩

/-- String append acts as list append on the underlying character data. -/
theorem countT_append (a b : String) : countT (a ++ b) = countT a + countT b := by
  have h : (a ++ b).data = a.data ++ b.data := rfl
  simp [countT, h, List.count_append]

/-- Joining LIST / NON_NULL tokens with spaces puts exactly one `T`
character into the string per LIST token. -/
theorem countT_joinSpace : ∀ (l : List String),
    (∀ s ∈ l, s = "LIST" ∨ s = "NON_NULL") →
    countT (joinSpace l) = countLIST l := by
  intro l
  induction l with
  | nil => intro _; rfl
  | cons s rest ih =>
    intro hl
    have hs : countT s = (if s = "LIST" then 1 else 0) := by
      rcases hl s (by simp) with h | h <;> subst h <;> decide
    cases rest with
    | nil =>
      show countT s = countLIST [s]
      rw [hs]
      simp [countLIST]
    | cons s2 rest2 =>
      have hj : joinSpace (s :: s2 :: rest2) = s ++ " " ++ joinSpace (s2 :: rest2) := rfl
      rw [show joinSpace (s :: s2 :: rest2) = joinSpace (s :: s2 :: rest2) from rfl] at hj
      have hrest := ih (fun t ht => hl t (by simp [ht]))
      show countT (joinSpace (s :: s2 :: rest2)) = countLIST (s :: s2 :: rest2)
      rw [hj, countT_append, countT_append, hs, hrest]
      have h1 : countT " " = 0 := by decide
      rw [h1]
      simp [countLIST]

/-- Every token peeled off a type-reference chain is LIST or NON_NULL. -/
theorem collectModifier_tokens : ∀ t : TypeRefTree, ∀ s ∈ collectModifier t,
    s = "LIST" ∨ s = "NON_NULL" := by
  intro t
  induction t with
  | named k n => intro s hs; simp [collectModifier] at hs
  | list t1 ih =>
    intro s hs
    simp only [collectModifier, List.mem_cons] at hs
    rcases hs with h | h
    · exact Or.inl h
    · exact ih s h
  | nonNull t1 ih =>
    intro s hs
    simp only [collectModifier, List.mem_cons] at hs
    rcases hs with h | h
    · exact Or.inr h
    · exact ih s h

/-- The token count of LISTs agrees with the structural LIST count. -/
theorem countLIST_collectModifier : ∀ t : TypeRefTree,
    countLIST (collectModifier t) = listCount t := by
  intro t
  induction t <;> simp [collectModifier, countLIST, listCount, *]

/-- A modifier string with two or more `T` characters differs from all six
supported cases, so `getModifiedTsTypeName` throws on it. -/
theorem getModified_isOk_false_of_countT (s n k tp : String) (h : 2 ≤ countT s) :
    isOkE (getModifiedTsTypeName ⟨s, n, k⟩ tp) = false := by
  have h0 : ¬ s = "" := by rintro rfl; revert h; decide
  have h1 : ¬ s = "NON_NULL" := by rintro rfl; revert h; decide
  have h2 : ¬ s = "LIST" := by rintro rfl; revert h; decide
  have h3 : ¬ s = "LIST NON_NULL" := by rintro rfl; revert h; decide
  have h4 : ¬ s = "NON_NULL LIST" := by rintro rfl; revert h; decide
  have h5 : ¬ s = "NON_NULL LIST NON_NULL" := by rintro rfl; revert h; decide
  show isOkE (getModifiedTsTypeName ⟨s, n, k⟩ tp) = false
  unfold getModifiedTsTypeName
  rw [if_neg h0, if_neg h1, if_neg h2, if_neg h3, if_neg h4, if_neg h5]
  split
  · rfl
  split
  · rfl
  · rfl

/-- `getTypeRef` unfolds to its three components. -/
theorem getTypeRef_eq (t : TypeRefTree) :
    getTypeRef t = ⟨joinSpace (collectModifier t), leafName t, leafKind t⟩ := rfl

/-- A type reference with two or more LIST wrappers makes
`getModifiedTsTypeName` throw. -/
theorem getModified_err_of_two_lists (t : TypeRefTree) (tp : String)
    (h : 2 ≤ listCount t) :
    isOkE (getModifiedTsTypeName (getTypeRef t) tp) = false := by
  have hc : countT (joinSpace (collectModifier t)) = listCount t := by
    rw [countT_joinSpace _ (collectModifier_tokens t), countLIST_collectModifier]
  rw [getTypeRef_eq]
  exact getModified_isOk_false_of_countT _ _ _ tp (by rw [hc]; exact h)

/-- A type reference with two or more LIST wrappers makes `createFieldRef`
throw (the throw comes from its initial `getModifiedTsTypeName` call). -/
theorem createFieldRef_err_of_two_lists (f : String) (t : TypeRefTree) (tp : String)
    (h : 2 ≤ listCount t) :
    isOkE (createFieldRef f (getTypeRef t) tp) = false := by
  have hg := getModified_err_of_two_lists t tp h
  unfold createFieldRef
  cases hE : getModifiedTsTypeName (getTypeRef t) tp with
  | error e => rfl
  | ok v => rw [hE] at hg; exact absurd hg (by simp [isOkE])

/-- Claim C1: for each of the six supported modifier stacks — empty,
NON_NULL, LIST, (LIST, NON_NULL), (NON_NULL, LIST), (NON_NULL, LIST,
NON_NULL) — and every leaf type (primitive or custom, i.e. for every leaf
name, kind and prefix), `getModifiedTsTypeName` returns exactly
`Leaf | null`, `Leaf`, `(Leaf | null)[] | null`, `Leaf[] | null`,
`(Leaf | null)[]` and `Leaf[]` respectively, where `Leaf` is the resolved
leaf type expression `getTsTypeName name kind tp`. -/
theorem claim_c1_render_table (name kind tp : String) :
    getModifiedTsTypeName ⟨joinSpace [], name, kind⟩ tp =
      .ok (getTsTypeName name kind tp ++ " | null") ∧
    getModifiedTsTypeName ⟨joinSpace ["NON_NULL"], name, kind⟩ tp =
      .ok (getTsTypeName name kind tp) ∧
    getModifiedTsTypeName ⟨joinSpace ["LIST"], name, kind⟩ tp =
      .ok ("(" ++ getTsTypeName name kind tp ++ " | null)[] | null") ∧
    getModifiedTsTypeName ⟨joinSpace ["LIST", "NON_NULL"], name, kind⟩ tp =
      .ok (getTsTypeName name kind tp ++ "[] | null") ∧
    getModifiedTsTypeName ⟨joinSpace ["NON_NULL", "LIST"], name, kind⟩ tp =
      .ok ("(" ++ getTsTypeName name kind tp ++ " | null)[]") ∧
    getModifiedTsTypeName ⟨joinSpace ["NON_NULL", "LIST", "NON_NULL"], name, kind⟩ tp =
      .ok (getTsTypeName name kind tp ++ "[]") :=
  ⟨rfl, rfl, rfl, rfl, rfl, rfl⟩

/-- Claim C3 (amendment-free): for every field name and each of the six
supported modifier stacks, `createFieldRef` declares the field required
(separator `: `) exactly when the outermost modifier of the stack is
NON_NULL, and optional (separator `?: `) otherwise. -/
theorem claim_c3_optionality (f name kind tp : String) :
    createFieldRef f ⟨joinSpace [], name, kind⟩ tp =
      .ok (f ++ (if ([] : List String).head? = some "NON_NULL" then ": " else "?: ") ++
        (getTsTypeName name kind tp ++ " | null")) ∧
    createFieldRef f ⟨joinSpace ["NON_NULL"], name, kind⟩ tp =
      .ok (f ++ (if (["NON_NULL"] : List String).head? = some "NON_NULL" then ": " else "?: ") ++
        getTsTypeName name kind tp) ∧
    createFieldRef f ⟨joinSpace ["LIST"], name, kind⟩ tp =
      .ok (f ++ (if (["LIST"] : List String).head? = some "NON_NULL" then ": " else "?: ") ++
        ("(" ++ getTsTypeName name kind tp ++ " | null)[] | null")) ∧
    createFieldRef f ⟨joinSpace ["LIST", "NON_NULL"], name, kind⟩ tp =
      .ok (f ++
        (if (["LIST", "NON_NULL"] : List String).head? = some "NON_NULL" then ": " else "?: ") ++
        (getTsTypeName name kind tp ++ "[] | null")) ∧
    createFieldRef f ⟨joinSpace ["NON_NULL", "LIST"], name, kind⟩ tp =
      .ok (f ++
        (if (["NON_NULL", "LIST"] : List String).head? = some "NON_NULL" then ": " else "?: ") ++
        ("(" ++ getTsTypeName name kind tp ++ " | null)[]")) ∧
    createFieldRef f ⟨joinSpace ["NON_NULL", "LIST", "NON_NULL"], name, kind⟩ tp =
      .ok (f ++
        (if (["NON_NULL", "LIST", "NON_NULL"] : List String).head? = some "NON_NULL" then ": "
         else "?: ") ++
        (getTsTypeName name kind tp ++ "[]")) :=
  ⟨rfl, rfl, rfl, rfl, rfl, rfl⟩

/-- Claim C2, amended: every type reference whose modifier chain holds two
or more LIST wrappers makes `getModifiedTsTypeName` and the final
`createFieldRef` throw (no output); the historical string-based
`createFieldRef`, however, does not fail on the two explicit double-LIST
modifier strings — it renders nested arrays `Leaf[][]`. -/
theorem claim_c2_amended :
    (∀ (t : TypeRefTree) (tp f : String), 2 ≤ listCount t →
      isOkE (getModifiedTsTypeName (getTypeRef t) tp) = false ∧
      isOkE (createFieldRef f (getTypeRef t) tp) = false) ∧
    (∀ f n : String,
      createFieldRefLegacy f n "LIST NON_NULL LIST NON_NULL" =
        .ok (f ++ "?: " ++ n ++ "[][]") ∧
      createFieldRefLegacy f n "NON_NULL LIST NON_NULL LIST NON_NULL" =
        .ok (f ++ ": " ++ n ++ "[][]")) :=
  ⟨fun t tp f h => ⟨getModified_err_of_two_lists t tp h,
      createFieldRef_err_of_two_lists f t tp h⟩,
    fun _ _ => ⟨rfl, rfl⟩⟩

/-- Witness for the amended claim C2, at the concrete reference
`[[User!]]` (modifier stack LIST NON_NULL LIST NON_NULL). -/
theorem claim_c2_amended_witness :
    2 ≤ listCount (.list (.nonNull (.list (.nonNull (.named "OBJECT" "User"))))) ∧
    (isOkE (getModifiedTsTypeName
        (getTypeRef (.list (.nonNull (.list (.nonNull (.named "OBJECT" "User")))))) "GQL") =
      false ∧
     isOkE (createFieldRef "tags"
        (getTypeRef (.list (.nonNull (.list (.nonNull (.named "OBJECT" "User")))))) "GQL") =
      false) :=
  ⟨by decide,
    claim_c2_amended.1 (.list (.nonNull (.list (.nonNull (.named "OBJECT" "User"))))) "GQL"
      "tags" (by decide)⟩

/-- Counterexample to claim C2 as stated: the historical `createFieldRef`
(second half of utils.ts, the lines the claim cites) renders a
double-LIST modifier stack as a nested array instead of failing, so a
nested-array rendering is produced. -/
theorem claim_c2_counterexample :
    createFieldRefLegacy "tags" "string" "LIST NON_NULL LIST NON_NULL" =
      .ok "tags?: string[][]" := rfl

/-- Claim C4, amended: an Object's implemented-interface names that match
no type in the graph are silently ignored rather than reported: the
interface lookup (which compares the `<P>`-suffixed names against node
names) finds nothing, so `generateObjectResolver` behaves exactly as if
the lookup list were empty — no error is raised and no field is
suppressed on account of the dangling reference. -/
theorem claim_c4_amended (opts : GenerateTypescriptOptions) (ctx : String)
    (allGQLTypes : List TypeNode) (acc : ResolverAcc) (t : TypeNode)
    (hdangling : ∀ a ∈ allGQLTypes,
      (t.interfaces.map (fun i => i.name ++ "<P>")).contains a.name = false) :
    generateObjectResolver opts ctx allGQLTypes acc t =
      generateObjectResolver opts ctx [] acc t := by
  have hfil : List.filter
      (fun a => (List.map (fun i => i.name ++ "<P>") t.interfaces).contains a.name)
      allGQLTypes = [] := by
    rw [List.filter_eq_nil_iff]
    intro a ha
    simpa using hdangling a ha
  have h0 : List.filter (fun a : TypeNode => (([] : List String).contains a.name))
      allGQLTypes = [] := by
    rw [List.filter_eq_nil_iff]
    intro a _
    simp
  by_cases hk : t.kind = "OBJECT"
  · simp only [generateObjectResolver, hk, if_true, List.filter_nil]
    rw [hfil]
  · simp only [generateObjectResolver, hk, if_false, List.filter_nil]
    rw [h0]

/-- Witness for the amended claim C4: `type B implements A { x: String! }`
in a graph that contains no `A`; the resolver for `B` is generated exactly
as with an empty lookup graph, with no error. -/
theorem claim_c4_amended_witness :
    (∀ a ∈ [objDangling],
      (objDangling.interfaces.map (fun i => i.name ++ "<P>")).contains a.name = false) ∧
    generateObjectResolver optsMin "any" [objDangling] ⟨[], []⟩ objDangling =
      generateObjectResolver optsMin "any" [] ⟨[], []⟩ objDangling :=
  ⟨by decide,
    claim_c4_amended optsMin "any" [objDangling] ⟨[], []⟩ objDangling (by decide)⟩

/-- Counterexample to claim C4 as stated: a full generation run over a
graph whose only Object names a dangling interface `A` succeeds (and emits
declarations), instead of failing with a dangling-interface error. -/
theorem claim_c4_counterexample :
    isOkE (resolverGenerate optsMin [objDangling]) = true ∧
    "B?: GQLB" ∈ bodyOf (resolverGenerate optsMin [objDangling]) := by decide

/-- Claim C5: the inherited-field merge.  On the fixture
`interface A { x: String! }`, `type B implements A { x: String! }`:
the final `ResolverTypesGenerator` re-declares `x` on `B` even with
`minimizeInterfaceImplementation` enabled, because its lookup compares the
suffixed name `A<P>` with the node name `A`; the historical
`ResolversGenerator` (src/unnamed/part_001), which compares plain names,
suppresses `x` when the switch is on and re-declares it when it is off, as
the claim states. -/
theorem claim_c5_merge_switch :
    "x?: B_X<P>" ∈ bodyOf (resolverGenerate optsMin mergeGraph) ∧
    "x?: B_X_Resolver<P>" ∉ ifacesOf
      (p001GenerateObjectResolver optsMin "Context" "RootValue" mergeGraph ["Query"]
        ⟨[], []⟩ objB) ∧
    "x?: B_X_Resolver<P>" ∈ ifacesOf
      (p001GenerateObjectResolver optsNoMin "Context" "RootValue" mergeGraph ["Query"]
        ⟨[], []⟩ objB) := by decide

/-- When the rendered union alias fits in the 80-column budget,
`createTsUnionType` keeps it on one line. -/
theorem createTsUnionType_short (typeName : String) (possibleTypes : List String)
    (tp : String)
    (h : ("export type " ++ tp ++ typeName ++ " = " ++
      joinSep " | " possibleTypes ++ ";").length ≤ 80) :
    createTsUnionType typeName possibleTypes tp =
      ["export type " ++ tp ++ typeName ++ " = " ++ joinSep " | " possibleTypes ++ ";"] := by
  simp only [createTsUnionType]
  rw [if_pos h]

/-- Claim C6: a Union `U` with possible types `P1`, `P2` (neither
built-in, all lines within the column budget) emits exactly the prefixed
alias `U = P1 | P2` in declared order, the literal-name union
`PossibleUTypeNames = 'P1' | 'P2'`, and the name-map interface keyed by
`U`, `P1`, `P2`, each mapped to its prefixed declared type. -/
theorem claim_c6_union_emission (opts : GenerateTypescriptOptions)
    (u p1 p2 k1 k2 : String)
    (h1 : isBuiltinType ⟨k1, p1⟩ = false) (h2 : isBuiltinType ⟨k2, p2⟩ = false)
    (hlen1 : ("export type " ++ opts.typePrefix ++ u ++ " = " ++
      joinSep " | " [opts.typePrefix ++ p1, opts.typePrefix ++ p2] ++ ";").length ≤ 80)
    (hlen2 : ("export type " ++ opts.typePrefix ++ ("Possible" ++ u ++ "TypeNames") ++ " = " ++
      joinSep " | " [q1 p1, q1 p2] ++ ";").length ≤ 80) :
    generateUnionType opts ⟨"UNION", u, none, [], [], [], [], [⟨k1, p1⟩, ⟨k2, p2⟩]⟩ =
      ["export type " ++ opts.typePrefix ++ u ++ " = " ++
          joinSep " | " [opts.typePrefix ++ p1, opts.typePrefix ++ p2] ++ ";",
       "",
       "/** Use this to resolve union type " ++ u ++ " */",
       "export type " ++ opts.typePrefix ++ ("Possible" ++ u ++ "TypeNames") ++ " = " ++
          joinSep " | " [q1 p1, q1 p2] ++ ";",
       "",
       "export interface " ++ opts.typePrefix ++ u ++ "NameMap \x7b",
       u ++ ": " ++ opts.typePrefix ++ u ++ ";",
       p1 ++ ": " ++ opts.typePrefix ++ p1 ++ ";",
       p2 ++ ": " ++ opts.typePrefix ++ p2 ++ ";",
       "\x7d"] := by
  simp only [generateUnionType, List.map, h1, h2, Bool.false_eq_true, if_false]
  rw [createTsUnionType_short _ _ _ hlen1, createTsUnionType_short _ _ _ hlen2]
  rfl

/-- Witness for claim C6, at `union U = P1 | P2` with prefix `GQL`. -/
theorem claim_c6_union_emission_witness :
    (isBuiltinType ⟨"OBJECT", "P1"⟩ = false ∧ isBuiltinType ⟨"OBJECT", "P2"⟩ = false ∧
     ("export type " ++ optsMin.typePrefix ++ "U" ++ " = " ++
        joinSep " | " [optsMin.typePrefix ++ "P1", optsMin.typePrefix ++ "P2"] ++
        ";").length ≤ 80 ∧
     ("export type " ++ optsMin.typePrefix ++ ("Possible" ++ "U" ++ "TypeNames") ++ " = " ++
        joinSep " | " [q1 "P1", q1 "P2"] ++ ";").length ≤ 80) ∧
    generateUnionType optsMin
        ⟨"UNION", "U", none, [], [], [], [], [⟨"OBJECT", "P1"⟩, ⟨"OBJECT", "P2"⟩]⟩ =
      ["export type " ++ optsMin.typePrefix ++ "U" ++ " = " ++
          joinSep " | " [optsMin.typePrefix ++ "P1", optsMin.typePrefix ++ "P2"] ++ ";",
       "",
       "/** Use this to resolve union type " ++ "U" ++ " */",
       "export type " ++ optsMin.typePrefix ++ ("Possible" ++ "U" ++ "TypeNames") ++ " = " ++
          joinSep " | " [q1 "P1", q1 "P2"] ++ ";",
       "",
       "export interface " ++ optsMin.typePrefix ++ "U" ++ "NameMap \x7b",
       "U" ++ ": " ++ optsMin.typePrefix ++ "U" ++ ";",
       "P1" ++ ": " ++ optsMin.typePrefix ++ "P1" ++ ";",
       "P2" ++ ": " ++ optsMin.typePrefix ++ "P2" ++ ";",
       "\x7d"] :=
  ⟨⟨by decide, by decide, by decide, by decide⟩,
    claim_c6_union_emission optsMin "U" "P1" "P2" "OBJECT" "OBJECT"
      (by decide) (by decide) (by decide) (by decide)⟩

/-- Claim C7, amended: a custom scalar with no override entry resolves to
the permissive fallback `any`; one with a non-empty override entry
resolves exactly to the override expression; an empty-string override
entry is JS-falsy and also falls back to `any`; and `gqlScalarToTS` maps
every unrecognized scalar name to the deterministic synthesized alias
`typePrefix + name`.  Scalar mapping is a total function (no failing
path). -/
theorem claim_c7_scalar_mapping (opts : GenerateTypescriptOptions) (node : TypeNode) :
    (opts.customScalarType node.name = none →
      generateCustomScalarType opts node =
        ["export type " ++ opts.typePrefix ++ node.name ++ " = any;"]) ∧
    (∀ v : String, opts.customScalarType node.name = some v → ¬ v = "" →
      generateCustomScalarType opts node =
        ["export type " ++ opts.typePrefix ++ node.name ++ " = " ++ v ++ ";"]) ∧
    (opts.customScalarType node.name = some "" →
      generateCustomScalarType opts node =
        ["export type " ++ opts.typePrefix ++ node.name ++ " = any;"]) ∧
    (∀ s tp : String, s ∉ ["Int", "Float", "String", "ID", "Boolean"] →
      gqlScalarToTS s tp = tp ++ s) := by
  refine ⟨?_, ?_, ?_, ?_⟩
  · intro h
    simp [generateCustomScalarType, h]
  · intro v h hv
    simp [generateCustomScalarType, h, hv]
  · intro h
    simp [generateCustomScalarType, h]
  · intro s tp hs
    simp only [List.mem_cons, List.mem_singleton, not_or] at hs
    obtain ⟨n1, n2, n3, n4, n5⟩ := hs
    simp [gqlScalarToTS, n1, n2, n3, n4, n5]

/-- Witness for the amended claim C7: `DateTime` with no override maps to
`any`; with the override `{DateTime: "string"}` it maps to `string`. -/
theorem claim_c7_scalar_mapping_witness :
    (optsMin.customScalarType dtScalar.name = none ∧
     generateCustomScalarType optsMin dtScalar =
       ["export type " ++ optsMin.typePrefix ++ dtScalar.name ++ " = any;"]) ∧
    (dtStrOpts.customScalarType dtScalar.name = some "string" ∧
     generateCustomScalarType dtStrOpts dtScalar =
       ["export type " ++ dtStrOpts.typePrefix ++ dtScalar.name ++ " = " ++ "string" ++ ";"]) ∧
    ("Date" ∉ ["Int", "Float", "String", "ID", "Boolean"] ∧
     gqlScalarToTS "Date" "GQL" = "GQL" ++ "Date") :=
  ⟨⟨rfl, (claim_c7_scalar_mapping optsMin dtScalar).1 rfl⟩,
   ⟨rfl, (claim_c7_scalar_mapping dtStrOpts dtScalar).2.1 "string" rfl (by decide)⟩,
   ⟨by decide, (claim_c7_scalar_mapping optsMin dtScalar).2.2.2 "Date" "GQL" (by decide)⟩⟩

/-- Counterexample to claim C7 as stated: the override mapping has an
entry for `DateTime`, yet the emitted alias is the fallback `any`, not the
override expression, because the JS truthiness check rejects the empty
string. -/
theorem claim_c7_counterexample :
    dtOpts.customScalarType "DateTime" = some "" ∧
    generateCustomScalarType dtOpts dtScalar = ["export type GQLDateTime = any;"] :=
  ⟨rfl, rfl⟩

/-- A node whose kind tag is outside the closed kind set is never a
built-in type, so it survives the built-in filter. -/
theorem unknown_not_builtin (k n : String) (h : knownKinds.contains k = false) :
    isBuiltinType ⟨k, n⟩ = false := by
  have h1 : ¬ k = "SCALAR" := by rintro rfl; revert h; decide
  have h2 : ¬ k = "ENUM" := by rintro rfl; revert h; decide
  have h3 : ¬ k = "OBJECT" := by rintro rfl; revert h; decide
  simp [isBuiltinType, h1, h2, h3]

/-- The simple generator's reduce step throws on an unrecognized kind. -/
theorem simpleGenStep_unknown (opts : GenerateTypescriptOptions) (prev : List String)
    (t : TypeNode) (h : knownKinds.contains t.kind = false) :
    simpleGenStep opts prev t = .error ("Unknown type kind " ++ t.kind) := by
  have h1 : ¬ t.kind = "SCALAR" := by intro e; rw [e] at h; revert h; decide
  have h2 : ¬ t.kind = "ENUM" := by intro e; rw [e] at h; revert h; decide
  have h3 : ¬ t.kind = "OBJECT" := by intro e; rw [e] at h; revert h; decide
  have h4 : ¬ t.kind = "INTERFACE" := by intro e; rw [e] at h; revert h; decide
  have h5 : ¬ t.kind = "INPUT_OBJECT" := by intro e; rw [e] at h; revert h; decide
  have h6 : ¬ t.kind = "UNION" := by intro e; rw [e] at h; revert h; decide
  simp [simpleGenStep, h1, h2, h3, h4, h5, h6]

/-- A fold of the simple generator's step over a list containing a node of
unrecognized kind throws, whatever happens before and after it. -/
theorem simpleGen_fold_err (opts : GenerateTypescriptOptions) :
    ∀ (l : List TypeNode) (prev : List String),
      (∃ t ∈ l, knownKinds.contains t.kind = false) →
      isOkE (l.foldlM (simpleGenStep opts) prev) = false := by
  intro l
  induction l with
  | nil =>
    intro prev h
    rcases h with ⟨t, ht, _⟩
    simp at ht
  | cons x xs ih =>
    intro prev h
    rw [List.foldlM_cons]
    by_cases hx : knownKinds.contains x.kind = false
    · rw [simpleGenStep_unknown opts prev x hx]
      rfl
    · cases hs : simpleGenStep opts prev x with
      | error e => rfl
      | ok prev2 =>
        show isOkE (xs.foldlM (simpleGenStep opts) prev2) = false
        apply ih
        rcases h with ⟨t, ht, hkt⟩
        rcases List.mem_cons.mp ht with rfl | hmem
        · exact absurd hkt hx
        · exact ⟨t, hmem, hkt⟩

/-- Claim C8, amended: a TypeNode whose kind tag is outside the closed set
makes `SimpleTypesGenerator.generate` abort with the Unknown-type-kind
error (no output at all); the resolver generator's per-type dispatch,
however, has no default case and silently skips such a node, leaving its
accumulated output unchanged and raising no error. -/
theorem claim_c8_amended :
    (∀ (opts : GenerateTypescriptOptions) (types : List TypeNode),
      (∃ t ∈ types, knownKinds.contains t.kind = false) →
      isOkE (simpleGenerate opts types) = false) ∧
    (∀ (opts : GenerateTypescriptOptions) (ctx : String) (allGQLTypes : List TypeNode)
      (acc : ResolverAcc) (t : TypeNode),
      knownKinds.contains t.kind = false →
      resolverStep opts ctx allGQLTypes acc t = .ok acc) := by
  constructor
  · intro opts types h
    rcases h with ⟨t, ht, hkt⟩
    apply simpleGen_fold_err
    refine ⟨t, ?_, hkt⟩
    apply List.mem_filter.mpr
    refine ⟨ht, ?_⟩
    simp [unknown_not_builtin t.kind t.name hkt]
  · intro opts ctx allGQLTypes acc t h
    have h1 : ¬ t.kind = "SCALAR" := by intro e; rw [e] at h; revert h; decide
    have h2 : ¬ t.kind = "OBJECT" := by intro e; rw [e] at h; revert h; decide
    have h3 : ¬ t.kind = "INTERFACE" := by intro e; rw [e] at h; revert h; decide
    have h4 : ¬ t.kind = "UNION" := by intro e; rw [e] at h; revert h; decide
    simp [resolverStep, h1, h2, h3, h4]

/-- Witness for the amended claim C8, at a concrete graph holding a node
of kind `BOGUS`. -/
theorem claim_c8_amended_witness :
    (knownKinds.contains bogusNode.kind = false ∧
     isOkE (simpleGenerate optsMin [objB, bogusNode]) = false) ∧
    resolverStep optsMin "any" [objB, bogusNode] ⟨[], []⟩ bogusNode = .ok ⟨[], []⟩ :=
  ⟨⟨by decide,
      claim_c8_amended.1 optsMin [objB, bogusNode] ⟨bogusNode, by decide, by decide⟩⟩,
    claim_c8_amended.2 optsMin "any" [objB, bogusNode] ⟨[], []⟩ bogusNode (by decide)⟩

/-- Counterexample to claim C8 as stated: a full resolver generation run
over a graph containing a node of kind `BOGUS` does not abort — it
succeeds and still emits declarations for the other types. -/
theorem claim_c8_counterexample :
    isOkE (resolverGenerate optsMin [bogusNode, objB]) = true ∧
    "B?: GQLB" ∈ bodyOf (resolverGenerate optsMin [bogusNode, objB]) := by decide

/-- Re-wrapping a block whose every line fits in the column budget leaves
it unchanged. -/
theorem rewrapLines_short : ∀ ls : List String,
    (∀ l ∈ ls, l.length ≤ 80) → rewrapLines ls = .ok ls := by
  intro ls
  induction ls with
  | nil => intro _; rfl
  | cons a rest ih =>
    intro hs
    have ha : wrapLine a = .ok [a] := by
      unfold wrapLine
      rw [if_pos (hs a (by simp))]
    have hrest : rewrapLines rest = .ok rest := ih (fun l hl => hs l (by simp [hl]))
    simp [rewrapLines, ha, hrest]

/-- Claim C9, amended: the union line-wrapper is a deterministic function,
and re-wrapping wrapped output is the identity as long as every emitted
line fits in the 80-column budget (the re-flow only breaks at member
separators, so a wrapped line that still exceeds the budget — e.g. from an
over-long type name or member — is re-flowed again, differently, by a
second application). -/
theorem claim_c9_wrap_idempotent (typeName : String) (possibleTypes : List String)
    (tp : String)
    (h : ∀ l ∈ createTsUnionType typeName possibleTypes tp, l.length ≤ 80) :
    rewrapLines (createTsUnionType typeName possibleTypes tp) =
      .ok (createTsUnionType typeName possibleTypes tp) :=
  rewrapLines_short _ h

/-- Witness for the amended claim C9, at a short concrete union (and at a
long one whose wrapped lines are all within budget). -/
theorem claim_c9_wrap_idempotent_witness :
    ((∀ l ∈ createTsUnionType "Color" [q1 "Red", q1 "Green", q1 "Blue"] "GQL",
        l.length ≤ 80) ∧
      rewrapLines (createTsUnionType "Color" [q1 "Red", q1 "Green", q1 "Blue"] "GQL") =
        .ok (createTsUnionType "Color" [q1 "Red", q1 "Green", q1 "Blue"] "GQL")) ∧
    ((∀ l ∈ createTsUnionType "Searchable"
          [q1 "Movie", q1 "User", q1 "Book", q1 "Author", q1 "Publisher", q1 "Series",
            q1 "Magazine", q1 "Article", q1 "Podcast"] "GQL", l.length ≤ 80) ∧
      rewrapLines (createTsUnionType "Searchable"
          [q1 "Movie", q1 "User", q1 "Book", q1 "Author", q1 "Publisher", q1 "Series",
            q1 "Magazine", q1 "Article", q1 "Podcast"] "GQL") =
        .ok (createTsUnionType "Searchable"
          [q1 "Movie", q1 "User", q1 "Book", q1 "Author", q1 "Publisher", q1 "Series",
            q1 "Magazine", q1 "Article", q1 "Podcast"] "GQL")) :=
  ⟨⟨by decide, claim_c9_wrap_idempotent "Color" [q1 "Red", q1 "Green", q1 "Blue"] "GQL"
      (by decide)⟩,
    ⟨by decide, claim_c9_wrap_idempotent "Searchable"
      [q1 "Movie", q1 "User", q1 "Book", q1 "Author", q1 "Publisher", q1 "Series",
        q1 "Magazine", q1 "Article", q1 "Podcast"] "GQL" (by decide)⟩⟩

/-- Counterexample to claim C9 as stated: with a 100-character type name
the wrapped output's first line still exceeds 80 columns (it ends in `=`),
and a second application of the wrapper splits it again, appending an
empty line — so re-wrapping already-wrapped output changes it. -/
theorem claim_c9_counterexample :
    createTsUnionType longAs ["X", "Y"] "" =
      ["export type " ++ longAs ++ " =", "X |", "Y;"] ∧
    rewrapLines (createTsUnionType longAs ["X", "Y"] "") =
      .ok ["export type " ++ longAs ++ " =", "", "X |", "Y;"] ∧
    rewrapLines (createTsUnionType longAs ["X", "Y"] "") ≠
      .ok (createTsUnionType longAs ["X", "Y"] "") := by
  refine ⟨rfl, rfl, ?_⟩
  intro hcontra
  rw [show createTsUnionType longAs ["X", "Y"] "" =
      ["export type " ++ longAs ++ " =", "X |", "Y;"] from rfl] at hcontra
  rw [show rewrapLines ["export type " ++ longAs ++ " =", "X |", "Y;"] =
      .ok ["export type " ++ longAs ++ " =", "", "X |", "Y;"] from rfl] at hcontra
  simp at hcontra

/-- Claim C10: both generators filter the TypeGraph through
`isBuiltinType` before walking it, so inserting any built-in node — the
scalars Int, Float, String, Boolean, ID; the introspection enums
__TypeKind, __DirectiveLocation; the introspection objects __Schema,
__Type, __Field, __InputValue, __Directive, __EnumValue — anywhere into
the input changes neither the plain-type output nor the resolver output;
and every type in those three enumerations is indeed classified as
built-in. -/
theorem claim_c10_builtin_filter :
    (∀ (opts : GenerateTypescriptOptions) (pre post : List TypeNode) (t : TypeNode),
      isBuiltinType ⟨t.kind, t.name⟩ = true →
      simpleGenerate opts (pre ++ t :: post) = simpleGenerate opts (pre ++ post) ∧
      resolverGenerate opts (pre ++ t :: post) = resolverGenerate opts (pre ++ post)) ∧
    (∀ n ∈ ["Int", "Float", "String", "Boolean", "ID"],
      isBuiltinType ⟨"SCALAR", n⟩ = true) ∧
    (∀ n ∈ ["__TypeKind", "__DirectiveLocation"],
      isBuiltinType ⟨"ENUM", n⟩ = true) ∧
    (∀ n ∈ ["__Schema", "__Type", "__Field", "__InputValue", "__Directive", "__EnumValue"],
      isBuiltinType ⟨"OBJECT", n⟩ = true) := by
  refine ⟨?_, by decide, by decide, by decide⟩
  intro opts pre post t h
  have hfil : (pre ++ t :: post).filter (fun x => !isBuiltinType ⟨x.kind, x.name⟩) =
      (pre ++ post).filter (fun x => !isBuiltinType ⟨x.kind, x.name⟩) := by
    simp [List.filter_append, List.filter_cons, h]
  constructor
  · unfold simpleGenerate
    rw [hfil]
  · simp only [resolverGenerate]
    rw [hfil]

/-- Witness for claim C10: inserting the built-in `Int` scalar into a
small graph changes neither generator's output. -/
theorem claim_c10_builtin_filter_witness :
    (isBuiltinType ⟨intScalar.kind, intScalar.name⟩ = true ∧
     simpleGenerate optsMin ([objB] ++ intScalar :: [dtScalar]) =
       simpleGenerate optsMin ([objB] ++ [dtScalar]) ∧
     resolverGenerate optsMin ([objB] ++ intScalar :: [dtScalar]) =
       resolverGenerate optsMin ([objB] ++ [dtScalar])) ∧
    ("Int" ∈ ["Int", "Float", "String", "Boolean", "ID"] ∧
     isBuiltinType ⟨"SCALAR", "Int"⟩ = true) :=
  ⟨⟨by decide,
      claim_c10_builtin_filter.1 optsMin [objB] [dtScalar] intScalar (by decide)⟩,
    ⟨by decide, claim_c10_builtin_filter.2.1 "Int" (by decide)⟩⟩
